import Mathlib

/-!
Shallow embedding of the actuarial projection engine of this repository
(`src/app/projection_engine.py`, `src/app/mortality_tables.py`,
`src/app/models.py`) over exact rational arithmetic.

Python floats are modelled as `ℚ`.  Python `round(x, n)` is modelled as
scaling by `10 ^ n` and rounding to the nearest integer (`roundTo`);
the builtin resolves exact decimal ties to even while `roundTo` rounds
half up, and every concrete value appearing in a theorem below sits away
from a tie, where the two agree.

The two power computations of the source, `1 - (1 - qx) ^ (1/12)`
(`annual_to_monthly_qx`) and `(1 + i) ^ (1/12) - 1` (the monthly rate
inside `calculate_reserve`), are irrational-valued, so they have no
rational-valued embedding.  The engine is therefore parametrised by a
`PowOracle` providing these two functions, and each theorem assumes only
the algebraic facts about them that it needs (for instance that the
conversion maps `[0, 1]` into `[0, 1]`, that it is below `1` on `[0, 1)`,
that it fixes `1`, or that the monthly rate at annual rate `0` is `0` --
all true of the real-valued formulas, and the last three exact even in
IEEE arithmetic).
-/

namespace ActuarialModel

/-- Oracle for the two real-power computations of the source: `a2m`
models `annual_to_monthly_qx` (`src/app/mortality_tables.py`), and
`mrate` models the monthly rate `(1 + i) ^ (1/12) - 1` computed at the
top of `calculate_reserve` (`src/app/projection_engine.py`). -/
structure PowOracle where
  a2m : ℚ → ℚ
  mrate : ℚ → ℚ

/-- The `ELT17_MALES_QX` dictionary of `src/app/mortality_tables.py`,
index = age 0..100.  Ages outside 0..100 are never looked up (the dict
would raise `KeyError` there; `get_qx` clamps first), so the default arm
is unreachable from `get_qx`. -/
def ELT17_MALES_QX : ℕ → ℚ
  | 0 => 4707 / 1000000
  | 1 => 337 / 1000000
  | 2 => 186 / 1000000
  | 3 => 150 / 1000000
  | 4 => 121 / 1000000
  | 5 => 107 / 1000000
  | 6 => 96 / 1000000
  | 7 => 88 / 1000000
  | 8 => 83 / 1000000
  | 9 => 83 / 1000000
  | 10 => 89 / 1000000
  | 11 => 100 / 1000000
  | 12 => 117 / 1000000
  | 13 => 140 / 1000000
  | 14 => 169 / 1000000
  | 15 => 206 / 1000000
  | 16 => 260 / 1000000
  | 17 => 334 / 1000000
  | 18 => 418 / 1000000
  | 19 => 495 / 1000000
  | 20 => 553 / 1000000
  | 21 => 588 / 1000000
  | 22 => 604 / 1000000
  | 23 => 607 / 1000000
  | 24 => 605 / 1000000
  | 25 => 601 / 1000000
  | 26 => 598 / 1000000
  | 27 => 600 / 1000000
  | 28 => 607 / 1000000
  | 29 => 622 / 1000000
  | 30 => 646 / 1000000
  | 31 => 680 / 1000000
  | 32 => 724 / 1000000
  | 33 => 780 / 1000000
  | 34 => 848 / 1000000
  | 35 => 928 / 1000000
  | 36 => 1021 / 1000000
  | 37 => 1128 / 1000000
  | 38 => 1249 / 1000000
  | 39 => 1386 / 1000000
  | 40 => 1538 / 1000000
  | 41 => 1707 / 1000000
  | 42 => 1893 / 1000000
  | 43 => 2099 / 1000000
  | 44 => 2326 / 1000000
  | 45 => 2575 / 1000000
  | 46 => 2849 / 1000000
  | 47 => 3149 / 1000000
  | 48 => 3479 / 1000000
  | 49 => 3842 / 1000000
  | 50 => 4242 / 1000000
  | 51 => 4683 / 1000000
  | 52 => 5171 / 1000000
  | 53 => 5712 / 1000000
  | 54 => 6315 / 1000000
  | 55 => 6988 / 1000000
  | 56 => 7742 / 1000000
  | 57 => 8589 / 1000000
  | 58 => 9541 / 1000000
  | 59 => 10615 / 1000000
  | 60 => 11826 / 1000000
  | 61 => 13195 / 1000000
  | 62 => 14743 / 1000000
  | 63 => 16496 / 1000000
  | 64 => 18485 / 1000000
  | 65 => 20745 / 1000000
  | 66 => 23318 / 1000000
  | 67 => 26251 / 1000000
  | 68 => 29601 / 1000000
  | 69 => 33429 / 1000000
  | 70 => 37809 / 1000000
  | 71 => 42827 / 1000000
  | 72 => 48582 / 1000000
  | 73 => 55188 / 1000000
  | 74 => 62773 / 1000000
  | 75 => 71487 / 1000000
  | 76 => 81499 / 1000000
  | 77 => 93002 / 1000000
  | 78 => 106217 / 1000000
  | 79 => 121392 / 1000000
  | 80 => 138802 / 1000000
  | 81 => 158745 / 1000000
  | 82 => 181534 / 1000000
  | 83 => 207489 / 1000000
  | 84 => 236922 / 1000000
  | 85 => 270111 / 1000000
  | 86 => 307256 / 1000000
  | 87 => 348429 / 1000000
  | 88 => 393512 / 1000000
  | 89 => 442143 / 1000000
  | 90 => 493651 / 1000000
  | 91 => 547108 / 1000000
  | 92 => 601335 / 1000000
  | 93 => 654943 / 1000000
  | 94 => 706489 / 1000000
  | 95 => 754621 / 1000000
  | 96 => 798189 / 1000000
  | 97 => 836310 / 1000000
  | 98 => 868438 / 1000000
  | 99 => 894366 / 1000000
  | 100 => 1000000 / 1000000
  | _ => 0

/-- `get_qx` of `src/app/mortality_tables.py`: reject any table name
other than the one built-in table, clamp the age into `[0, 100]`
(`min` then `max`, as in the source), then look up the annual rate. -/
def get_qx (age : ℤ) (table : String) : Except String ℚ :=
  if table ≠ "ELT17_MALES" then
    Except.error ("Unknown mortality table: " ++ table)
  else
    Except.ok (ELT17_MALES_QX (max (min age 100) 0).toNat)

/-- The value `get_qx` returns on the one built-in table. -/
def qx_known (age : ℤ) : ℚ := ELT17_MALES_QX (max (min age 100) 0).toNat

/-- The monthly mortality rate the engine uses at a given age on the
built-in table: `annual_to_monthly_qx(get_qx(age))`, with the conversion
supplied by the oracle. -/
def monthlyQx (O : PowOracle) (age : ℤ) : ℚ := O.a2m (qx_known age)

/-- Python `round(x, n)` on the rational model: scale by `10 ^ n`, round
to the nearest integer (half up), unscale. -/
def roundTo (n : ℕ) (x : ℚ) : ℚ := ((round (x * 10 ^ n) : ℤ) : ℚ) / 10 ^ n

/-- The `Assumptions` pydantic model of `src/app/models.py`. -/
structure Assumptions where
  num_policies : ℕ
  sum_assured : ℚ
  term_years : ℕ
  entry_age : ℤ
  interest_rate : ℚ
  monthly_premium : ℚ
  mortality_table : String
deriving DecidableEq

/-- The field constraints the pydantic model validates
(`gt`/`ge`/`le` bounds in `src/app/models.py`). -/
def Assumptions.Valid (a : Assumptions) : Prop :=
  0 < a.num_policies ∧ 0 < a.sum_assured ∧ 0 < a.term_years ∧ a.term_years ≤ 50 ∧
    18 ≤ a.entry_age ∧ a.entry_age ≤ 80 ∧ 0 ≤ a.interest_rate ∧ a.interest_rate ≤ 1 ∧
    0 ≤ a.monthly_premium

instance (a : Assumptions) : Decidable a.Valid := by
  unfold Assumptions.Valid
  infer_instance

/-- The `ProjectionRow` model of `src/app/models.py`. -/
structure ProjectionRow where
  month : ℕ
  year : ℕ
  age : ℤ
  policies_start : ℚ
  deaths : ℚ
  policies_end : ℚ
  premiums : ℚ
  claims : ℚ
  net_cashflow : ℚ
  reserve : ℚ
deriving DecidableEq

/-- The `ProjectionSummary` model of `src/app/models.py`. -/
structure ProjectionSummary where
  total_months : ℕ
  total_premiums : ℚ
  total_claims : ℚ
  total_deaths : ℚ
  final_in_force : ℚ
  peak_reserve : ℚ
deriving DecidableEq

/-- The `ProjectionResult` model of `src/app/models.py`. -/
structure ProjectionResult where
  assumptions : Assumptions
  rows : List ProjectionRow
  summary : ProjectionSummary
deriving DecidableEq

/-- The `for t in range(remaining_months)` loop of `calculate_reserve`
(`src/app/projection_engine.py`): `n` iterations remain, `t` is the loop
index, and the three accumulators are `pv_benefits`, `pv_premiums` and
`expected_policies`. -/
def reserveLoop (O : PowOracle) (table : String) (sum_assured monthly_premium : ℚ)
    (entry_age : ℤ) (current_month : ℕ) (monthly_rate : ℚ) :
    ℕ → ℕ → ℚ → ℚ → ℚ → Except String (ℚ × ℚ)
  | 0, _, pvB, pvP, _ => Except.ok (pvB, pvP)
  | n + 1, t, pvB, pvP, expected_policies =>
    match get_qx (entry_age + (((current_month + t) / 12 : ℕ) : ℤ)) table with
    | Except.error e => Except.error e
    | Except.ok qx_annual =>
      let qx_monthly := O.a2m qx_annual
      let discount := (1 + monthly_rate) ^ (-(t : ℤ))
      let expected_deaths := expected_policies * qx_monthly
      reserveLoop O table sum_assured monthly_premium entry_age current_month monthly_rate
        n (t + 1) (pvB + expected_deaths * sum_assured * discount)
        (pvP + expected_policies * monthly_premium * discount)
        (expected_policies - expected_deaths)

/-- `calculate_reserve` of `src/app/projection_engine.py`.  Returns
`Except` because the table lookup inside the loop can fail. -/
def calculate_reserve (O : PowOracle) (policies sum_assured monthly_premium : ℚ)
    (entry_age : ℤ) (current_month term_months : ℕ)
    (annual_interest_rate : ℚ) (mortality_table : String) : Except String ℚ :=
  if term_months ≤ current_month then Except.ok 0
  else
    match reserveLoop O mortality_table sum_assured monthly_premium entry_age
        current_month (O.mrate annual_interest_rate) (term_months - current_month)
        0 0 0 policies with
    | Except.error e => Except.error e
    | Except.ok pv => Except.ok (max 0 (pv.1 - pv.2))

/-- The mutable loop state of `run_projection`
(`src/app/projection_engine.py`, lines 85-92). -/
structure LoopState where
  policies_in_force : ℚ
  total_premiums : ℚ
  total_claims : ℚ
  total_deaths : ℚ
  peak_reserve : ℚ
  rows : List ProjectionRow
deriving DecidableEq

/-- Attained age at the start of projection month `m` (1-based):
`entry_age + (m - 1) // 12`. -/
def ageAt (a : Assumptions) (m : ℕ) : ℤ := a.entry_age + (((m - 1) / 12 : ℕ) : ℤ)

/-- One iteration of the `for month in range(1, term_months + 1)` loop of
`run_projection` (`src/app/projection_engine.py`). -/
def projStep (O : PowOracle) (a : Assumptions) (term_months : ℕ)
    (s : LoopState) (month : ℕ) : Except String LoopState :=
  let policy_year := (month - 1) / 12 + 1
  let age := ageAt a month
  match get_qx age a.mortality_table with
  | Except.error e => Except.error e
  | Except.ok qx_annual =>
    let qx_monthly := O.a2m qx_annual
    let deaths := s.policies_in_force * qx_monthly
    let premiums := s.policies_in_force * a.monthly_premium
    let claims := deaths * a.sum_assured
    let policies_at_start := s.policies_in_force
    let policies_after := policies_at_start - deaths
    match calculate_reserve O policies_after a.sum_assured a.monthly_premium a.entry_age
        month term_months a.interest_rate a.mortality_table with
    | Except.error e => Except.error e
    | Except.ok reserve =>
      Except.ok
        { policies_in_force := policies_after
          total_premiums := s.total_premiums + premiums
          total_claims := s.total_claims + claims
          total_deaths := s.total_deaths + deaths
          peak_reserve := max s.peak_reserve reserve
          rows := s.rows ++
            [{ month := month
               year := policy_year
               age := age
               policies_start := roundTo 4 policies_at_start
               deaths := roundTo 4 deaths
               policies_end := roundTo 4 policies_after
               premiums := roundTo 2 premiums
               claims := roundTo 2 claims
               net_cashflow := roundTo 2 (premiums - claims)
               reserve := roundTo 2 reserve }] }

/-- Runs `n` consecutive iterations of the monthly loop, the first one
with month index `month`. -/
def runMonths (O : PowOracle) (a : Assumptions) (term_months : ℕ) :
    ℕ → ℕ → LoopState → Except String LoopState
  | 0, _, s => Except.ok s
  | n + 1, month, s =>
    match projStep O a term_months s month with
    | Except.error e => Except.error e
    | Except.ok s2 => runMonths O a term_months n (month + 1) s2

/-- The initial loop state of `run_projection`. -/
def initState (a : Assumptions) : LoopState :=
  { policies_in_force := (a.num_policies : ℚ)
    total_premiums := 0
    total_claims := 0
    total_deaths := 0
    peak_reserve := 0
    rows := [] }

/-- `run_projection` of `src/app/projection_engine.py`. -/
def run_projection (O : PowOracle) (a : Assumptions) : Except String ProjectionResult :=
  let term_months := a.term_years * 12
  match runMonths O a term_months term_months 1 (initState a) with
  | Except.error e => Except.error e
  | Except.ok s =>
    Except.ok
      { assumptions := a
        rows := s.rows
        summary :=
          { total_months := term_months
            total_premiums := roundTo 2 s.total_premiums
            total_claims := roundTo 2 s.total_claims
            total_deaths := roundTo 4 s.total_deaths
            final_in_force := roundTo 4 s.policies_in_force
            peak_reserve := roundTo 2 s.peak_reserve } }

/-- Error-free mirror of `reserveLoop` for the built-in table: the
`get_qx` call is replaced by its value `qx_known`. -/
def reserveLoopP (O : PowOracle) (sum_assured monthly_premium : ℚ)
    (entry_age : ℤ) (current_month : ℕ) (monthly_rate : ℚ) :
    ℕ → ℕ → ℚ → ℚ → ℚ → ℚ × ℚ
  | 0, _, pvB, pvP, _ => (pvB, pvP)
  | n + 1, t, pvB, pvP, expected_policies =>
    let qx_monthly := O.a2m (qx_known (entry_age + (((current_month + t) / 12 : ℕ) : ℤ)))
    let discount := (1 + monthly_rate) ^ (-(t : ℤ))
    let expected_deaths := expected_policies * qx_monthly
    reserveLoopP O sum_assured monthly_premium entry_age current_month monthly_rate
      n (t + 1) (pvB + expected_deaths * sum_assured * discount)
      (pvP + expected_policies * monthly_premium * discount)
      (expected_policies - expected_deaths)

/-- Error-free mirror of `calculate_reserve` for the built-in table. -/
def calculate_reserveP (O : PowOracle) (policies sum_assured monthly_premium : ℚ)
    (entry_age : ℤ) (current_month term_months : ℕ)
    (annual_interest_rate : ℚ) : ℚ :=
  if term_months ≤ current_month then 0
  else
    let pv := reserveLoopP O sum_assured monthly_premium entry_age current_month
      (O.mrate annual_interest_rate) (term_months - current_month) 0 0 0 policies
    max 0 (pv.1 - pv.2)

/-- The unrounded in-force count after `m` projection months (the value
of the `policies_in_force` variable of `run_projection` once month `m`
has been processed). -/
def pifAfter (O : PowOracle) (a : Assumptions) : ℕ → ℚ
  | 0 => (a.num_policies : ℚ)
  | m + 1 => pifAfter O a m - pifAfter O a m * monthlyQx O (ageAt a (m + 1))

/-- The unrounded `deaths` value computed in projection month `m`. -/
def deathsU (O : PowOracle) (a : Assumptions) (m : ℕ) : ℚ :=
  pifAfter O a (m - 1) * monthlyQx O (ageAt a m)

/-- The unrounded `premiums` value computed in projection month `m`. -/
def premiumsU (O : PowOracle) (a : Assumptions) (m : ℕ) : ℚ :=
  pifAfter O a (m - 1) * a.monthly_premium

/-- The unrounded `claims` value computed in projection month `m`. -/
def claimsU (O : PowOracle) (a : Assumptions) (m : ℕ) : ℚ :=
  deathsU O a m * a.sum_assured

/-- The row `run_projection` emits in month `m` when the in-force count
at the start of that month is `p`. -/
def mkRow (O : PowOracle) (a : Assumptions) (term_months : ℕ) (p : ℚ) (m : ℕ) :
    ProjectionRow :=
  let deaths := p * monthlyQx O (ageAt a m)
  let premiums := p * a.monthly_premium
  let claims := deaths * a.sum_assured
  let pend := p - deaths
  { month := m
    year := (m - 1) / 12 + 1
    age := ageAt a m
    policies_start := roundTo 4 p
    deaths := roundTo 4 deaths
    policies_end := roundTo 4 pend
    premiums := roundTo 2 premiums
    claims := roundTo 2 claims
    net_cashflow := roundTo 2 (premiums - claims)
    reserve := roundTo 2 (calculate_reserveP O pend a.sum_assured a.monthly_premium
      a.entry_age m term_months a.interest_rate) }

/-- Error-free mirror of `projStep` for the built-in table. -/
def projStepP (O : PowOracle) (a : Assumptions) (term_months : ℕ)
    (s : LoopState) (month : ℕ) : LoopState :=
  let deaths := s.policies_in_force * monthlyQx O (ageAt a month)
  let pend := s.policies_in_force - deaths
  { policies_in_force := pend
    total_premiums := s.total_premiums + s.policies_in_force * a.monthly_premium
    total_claims := s.total_claims + deaths * a.sum_assured
    total_deaths := s.total_deaths + deaths
    peak_reserve := max s.peak_reserve (calculate_reserveP O pend a.sum_assured
      a.monthly_premium a.entry_age month term_months a.interest_rate)
    rows := s.rows ++ [mkRow O a term_months s.policies_in_force month] }

/-- Error-free mirror of `runMonths` for the built-in table. -/
def runMonthsP (O : PowOracle) (a : Assumptions) (term_months : ℕ) :
    ℕ → ℕ → LoopState → LoopState
  | 0, _, s => s
  | n + 1, month, s =>
    runMonthsP O a term_months n (month + 1) (projStepP O a term_months s month)

/-- The loop state of `run_projection` once the first `m` months have
been processed (months are processed in order `1, 2, ...`). -/
def stateAfter (O : PowOracle) (a : Assumptions) : ℕ → LoopState
  | 0 => initState a
  | m + 1 => projStepP O a (a.term_years * 12) (stateAfter O a m) (m + 1)

/-- The row emitted for month `m` of the projection. -/
def rowAt (O : PowOracle) (a : Assumptions) (m : ℕ) : ProjectionRow :=
  mkRow O a (a.term_years * 12) (pifAfter O a (m - 1)) m

/-- Follows the spec text for Scenario C: the undiscounted sum of future
expected claims (first component) and of future expected premiums
(second component) over `n` remaining months, the first of which falls
`t` months after the valuation month, starting from `pol` expected
policies. -/
def undiscountedSums (O : PowOracle) (sum_assured monthly_premium : ℚ)
    (entry_age : ℤ) (current_month : ℕ) : ℕ → ℕ → ℚ → ℚ × ℚ
  | 0, _, _ => (0, 0)
  | n + 1, t, pol =>
    let d := pol * O.a2m (qx_known (entry_age + (((current_month + t) / 12 : ℕ) : ℤ)))
    let rest := undiscountedSums O sum_assured monthly_premium entry_age current_month
      n (t + 1) (pol - d)
    (d * sum_assured + rest.1, pol * monthly_premium + rest.2)

/-- The rows of a projection outcome (empty when the run failed). -/
def rowsOf : Except String ProjectionResult → List ProjectionRow
  | Except.ok r => r.rows
  | Except.error _ => []

/-- The summary of a projection outcome (zeros when the run failed). -/
def summaryOf : Except String ProjectionResult → ProjectionSummary
  | Except.ok r => r.summary
  | Except.error _ =>
    { total_months := 0, total_premiums := 0, total_claims := 0, total_deaths := 0,
      final_in_force := 0, peak_reserve := 0 }

/-- All-zero row, used as the default of list lookups. -/
def dummyRow : ProjectionRow :=
  { month := 0, year := 0, age := 0, policies_start := 0, deaths := 0, policies_end := 0,
    premiums := 0, claims := 0, net_cashflow := 0, reserve := 0 }

/-- A generic test oracle: maps `[0, 1]` into `[0, 1]`, stays below `1`
on `[0, 1)`, and sends annual rate `0` to monthly rate `0`, like the
real-valued formulas it stands for. -/
def Otest : PowOracle := { a2m := fun q => q / 2, mrate := fun i => i / 12 }

/-- A small valid assumption set on the built-in table. -/
def Atest : Assumptions :=
  { num_policies := 1, sum_assured := 1, term_years := 1, entry_age := 40,
    interest_rate := 0, monthly_premium := 1, mortality_table := "ELT17_MALES" }

/-- A valid assumption set naming an unrecognized table. -/
def Abad : Assumptions :=
  { num_policies := 1, sum_assured := 1, term_years := 1, entry_age := 40,
    interest_rate := 0, monthly_premium := 1, mortality_table := "FOO" }

/-- Oracle with constant monthly rate `1/4` (a legal value of the
conversion, which maps `[0, 1]` into `[0, 1]`) and zero interest. -/
def Ocex1 : PowOracle := { a2m := fun _ => 1 / 4, mrate := fun _ => 0 }

/-- Valid assumptions exhibiting the rounding drift of the totals. -/
def Acex1 : Assumptions :=
  { num_policies := 1, sum_assured := 1, term_years := 1, entry_age := 40,
    interest_rate := 0, monthly_premium := 1, mortality_table := "ELT17_MALES" }

/-- Oracle whose conversion is the identity on the annual rate: it
agrees with the real conversion `1 - (1 - q) ^ (1/12)` at the two
endpoints `q = 0` and `q = 1`, in particular it fixes `1`. -/
def Ocex2 : PowOracle := { a2m := fun q => q, mrate := fun _ => 0 }

/-- Valid assumptions whose attained age reaches 100 (entry age 80,
term 21 years): month 241 has annual rate 1. -/
def Acex2 : Assumptions :=
  { num_policies := 1, sum_assured := 1, term_years := 21, entry_age := 80,
    interest_rate := 0, monthly_premium := 0, mortality_table := "ELT17_MALES" }

/-- Oracle with constant monthly mortality `43/1000000`. -/
def Ocex5 : PowOracle := { a2m := fun _ => 43 / 1000000, mrate := fun _ => 0 }

/-- Valid assumptions on which the rounded row fields of month 2 break
the rounded balance identity. -/
def Acex5 : Assumptions :=
  { num_policies := 1, sum_assured := 1, term_years := 1, entry_age := 40,
    interest_rate := 0, monthly_premium := 0, mortality_table := "ELT17_MALES" }

/-- Oracle with constant monthly mortality `1/250`. -/
def Ocex10 : PowOracle := { a2m := fun _ => 1 / 250, mrate := fun _ => 0 }

/-- Valid assumptions on which `net_cashflow` of month 1 differs by one
cent from `premiums - claims` of the emitted row. -/
def Acex10 : Assumptions :=
  { num_policies := 1, sum_assured := 1, term_years := 1, entry_age := 40,
    interest_rate := 0, monthly_premium := 63 / 500, mortality_table := "ELT17_MALES" }

theorem get_qx_known (age : ℤ) :
    get_qx age "ELT17_MALES" = Except.ok (qx_known age) := by
  simp [get_qx, qx_known]

theorem reserveLoop_known (O : PowOracle) (sa mp : ℚ) (ea : ℤ) (cm : ℕ) (mr : ℚ) :
    ∀ (n t : ℕ) (pvB pvP ep : ℚ),
      reserveLoop O "ELT17_MALES" sa mp ea cm mr n t pvB pvP ep =
        Except.ok (reserveLoopP O sa mp ea cm mr n t pvB pvP ep) := by
  intro n
  induction n with
  | zero => intro t pvB pvP ep; rfl
  | succ n ih =>
    intro t pvB pvP ep
    rw [reserveLoop, reserveLoopP, get_qx_known]
    exact ih (t + 1) _ _ _

theorem calculate_reserve_known (O : PowOracle) (pol sa mp : ℚ) (ea : ℤ)
    (cm tm : ℕ) (ir : ℚ) :
    calculate_reserve O pol sa mp ea cm tm ir "ELT17_MALES" =
      Except.ok (calculate_reserveP O pol sa mp ea cm tm ir) := by
  unfold calculate_reserve calculate_reserveP
  split
  · rfl
  · rw [reserveLoop_known]

theorem projStep_known (O : PowOracle) (a : Assumptions) (tm : ℕ) (s : LoopState)
    (m : ℕ) (h : a.mortality_table = "ELT17_MALES") :
    projStep O a tm s m = Except.ok (projStepP O a tm s m) := by
  simp only [projStep, projStepP, mkRow, h, get_qx_known, calculate_reserve_known,
    monthlyQx]

theorem runMonths_known (O : PowOracle) (a : Assumptions) (tm : ℕ)
    (h : a.mortality_table = "ELT17_MALES") :
    ∀ (n month : ℕ) (s : LoopState),
      runMonths O a tm n month s = Except.ok (runMonthsP O a tm n month s) := by
  intro n
  induction n with
  | zero => intro month s; rfl
  | succ n ih =>
    intro month s
    rw [runMonths, runMonthsP, projStep_known O a tm s month h]
    exact ih (month + 1) _

theorem runMonthsP_succ (O : PowOracle) (a : Assumptions) (tm : ℕ) :
    ∀ (n month : ℕ) (s : LoopState),
      runMonthsP O a tm (n + 1) month s =
        projStepP O a tm (runMonthsP O a tm n month s) (month + n) := by
  intro n
  induction n with
  | zero => intro month s; simp [runMonthsP]
  | succ n ih =>
    intro month s
    rw [runMonthsP, ih (month + 1), runMonthsP]
    rw [Nat.add_assoc, Nat.add_comm 1 n]

theorem runMonthsP_eq_stateAfter (O : PowOracle) (a : Assumptions) :
    ∀ m : ℕ, runMonthsP O a (a.term_years * 12) m 1 (initState a) = stateAfter O a m := by
  intro m
  induction m with
  | zero => rfl
  | succ m ih =>
    rw [runMonthsP_succ, ih, stateAfter]
    rw [Nat.add_comm 1 m]

theorem run_projection_known (O : PowOracle) (a : Assumptions)
    (h : a.mortality_table = "ELT17_MALES") :
    run_projection O a = Except.ok
      { assumptions := a
        rows := (stateAfter O a (a.term_years * 12)).rows
        summary :=
          { total_months := a.term_years * 12
            total_premiums := roundTo 2 (stateAfter O a (a.term_years * 12)).total_premiums
            total_claims := roundTo 2 (stateAfter O a (a.term_years * 12)).total_claims
            total_deaths := roundTo 4 (stateAfter O a (a.term_years * 12)).total_deaths
            final_in_force := roundTo 4 (stateAfter O a (a.term_years * 12)).policies_in_force
            peak_reserve := roundTo 2 (stateAfter O a (a.term_years * 12)).peak_reserve } } := by
  have h1 := runMonths_known O a (a.term_years * 12) h (a.term_years * 12) 1 (initState a)
  simp only [run_projection, h1, runMonthsP_eq_stateAfter]

theorem stateAfter_spec (O : PowOracle) (a : Assumptions) :
    ∀ m : ℕ,
      (stateAfter O a m).policies_in_force = pifAfter O a m ∧
      (stateAfter O a m).total_premiums =
        ((List.range m).map (fun i => premiumsU O a (i + 1))).sum ∧
      (stateAfter O a m).total_claims =
        ((List.range m).map (fun i => claimsU O a (i + 1))).sum ∧
      (stateAfter O a m).total_deaths =
        ((List.range m).map (fun i => deathsU O a (i + 1))).sum ∧
      (stateAfter O a m).rows = (List.range m).map (fun i => rowAt O a (i + 1)) := by
  intro m
  induction m with
  | zero =>
    refine ⟨rfl, rfl, rfl, rfl, rfl⟩
  | succ m ih =>
    obtain ⟨h1, h2, h3, h4, h5⟩ := ih
    rw [stateAfter]
    refine ⟨?_, ?_, ?_, ?_, ?_⟩
    · show (stateAfter O a m).policies_in_force -
        (stateAfter O a m).policies_in_force * monthlyQx O (ageAt a (m + 1)) = _
      rw [h1, pifAfter]
    · show (stateAfter O a m).total_premiums +
        (stateAfter O a m).policies_in_force * a.monthly_premium = _
      rw [h1, h2, List.range_succ, List.map_append, List.sum_append]
      simp [premiumsU]
    · show (stateAfter O a m).total_claims +
        (stateAfter O a m).policies_in_force * monthlyQx O (ageAt a (m + 1)) * a.sum_assured = _
      rw [h1, h3, List.range_succ, List.map_append, List.sum_append]
      simp [claimsU, deathsU]
    · show (stateAfter O a m).total_deaths +
        (stateAfter O a m).policies_in_force * monthlyQx O (ageAt a (m + 1)) = _
      rw [h1, h4, List.range_succ, List.map_append, List.sum_append]
      simp [deathsU]
    · show (stateAfter O a m).rows ++
        [mkRow O a (a.term_years * 12) (stateAfter O a m).policies_in_force (m + 1)] = _
      rw [h1, h5, List.range_succ, List.map_append]
      rfl

theorem round_mono_q {x y : ℚ} (h : x ≤ y) : round x ≤ round y := by
  rw [round_eq, round_eq]
  exact Int.floor_le_floor (by linarith)

theorem roundTo_zero (n : ℕ) : roundTo n 0 = 0 := by
  simp [roundTo]

theorem roundTo_mono (n : ℕ) {x y : ℚ} (h : x ≤ y) : roundTo n x ≤ roundTo n y := by
  unfold roundTo
  have h10 : (0 : ℚ) < 10 ^ n := by positivity
  have hr : ((round (x * 10 ^ n) : ℤ) : ℚ) ≤ ((round (y * 10 ^ n) : ℤ) : ℚ) :=
    Int.cast_le.mpr (round_mono_q (mul_le_mul_of_nonneg_right h (le_of_lt h10)))
  gcongr

theorem roundTo_nonneg (n : ℕ) {x : ℚ} (h : 0 ≤ x) : 0 ≤ roundTo n x := by
  have := roundTo_mono n h
  rwa [roundTo_zero] at this

theorem abs_roundTo_sub (n : ℕ) (x : ℚ) : |roundTo n x - x| ≤ 1 / (2 * 10 ^ n) := by
  unfold roundTo
  have h10 : (0 : ℚ) < 10 ^ n := by positivity
  have key : ((round (x * 10 ^ n) : ℤ) : ℚ) / 10 ^ n - x =
      (((round (x * 10 ^ n) : ℤ) : ℚ) - x * 10 ^ n) / 10 ^ n := by
    field_simp
    ring
  rw [key, abs_div, abs_of_pos h10]
  rw [div_le_div_iff h10 (by positivity)]
  have habs : |((round (x * 10 ^ n) : ℤ) : ℚ) - x * 10 ^ n| ≤ 1 / 2 := by
    rw [abs_sub_comm]
    exact abs_sub_round (x * 10 ^ n)
  calc |((round (x * 10 ^ n) : ℤ) : ℚ) - x * 10 ^ n| * (2 * 10 ^ n)
      ≤ (1 / 2) * (2 * 10 ^ n) := by
        exact mul_le_mul_of_nonneg_right habs (by positivity)
    _ = 1 * 10 ^ n := by ring

theorem qx_known_bounds (age : ℤ) : 0 ≤ qx_known age ∧ qx_known age ≤ 1 := by
  unfold qx_known
  have h : (max (min age 100) 0).toNat ≤ 100 := by omega
  have h2 : ∀ n : ℕ, n < 101 → 0 ≤ ELT17_MALES_QX n ∧ ELT17_MALES_QX n ≤ 1 := by
    with_unfolding_all decide
  exact h2 _ (by omega)

theorem qx_known_lt_one (age : ℤ) (h : age ≤ 99) : qx_known age < 1 := by
  unfold qx_known
  have h1 : (max (min age 100) 0).toNat ≤ 99 := by omega
  have h2 : ∀ n : ℕ, n < 100 → ELT17_MALES_QX n < 1 := by
    with_unfolding_all decide
  exact h2 _ (by omega)

theorem qx_known_clamp_high (age : ℤ) (h : 100 ≤ age) : qx_known age = qx_known 100 := by
  unfold qx_known
  congr 1
  omega

theorem qx_known_clamp_low (age : ℤ) (h : age ≤ 0) : qx_known age = qx_known 0 := by
  unfold qx_known
  congr 1
  omega

theorem pifAfter_nonneg (O : PowOracle) (a : Assumptions)
    (hO : ∀ q : ℚ, 0 ≤ q → q ≤ 1 → 0 ≤ O.a2m q ∧ O.a2m q ≤ 1) :
    ∀ m : ℕ, 0 ≤ pifAfter O a m := by
  intro m
  induction m with
  | zero =>
    rw [pifAfter]
    exact Nat.cast_nonneg _
  | succ m ih =>
    rw [pifAfter]
    obtain ⟨hq0, hq1⟩ := hO (qx_known (ageAt a (m + 1)))
      (qx_known_bounds _).1 (qx_known_bounds _).2
    have hrw : pifAfter O a m - pifAfter O a m * monthlyQx O (ageAt a (m + 1)) =
        pifAfter O a m * (1 - monthlyQx O (ageAt a (m + 1))) := by ring
    rw [hrw]
    exact mul_nonneg ih (by unfold monthlyQx; linarith)

theorem pifAfter_succ_le (O : PowOracle) (a : Assumptions)
    (hO : ∀ q : ℚ, 0 ≤ q → q ≤ 1 → 0 ≤ O.a2m q ∧ O.a2m q ≤ 1) (m : ℕ) :
    pifAfter O a (m + 1) ≤ pifAfter O a m := by
  rw [pifAfter]
  obtain ⟨hq0, hq1⟩ := hO (qx_known (ageAt a (m + 1)))
    (qx_known_bounds _).1 (qx_known_bounds _).2
  have hp := pifAfter_nonneg O a hO m
  have : 0 ≤ pifAfter O a m * monthlyQx O (ageAt a (m + 1)) :=
    mul_nonneg hp (by unfold monthlyQx; linarith)
  linarith

theorem ageAt_le (a : Assumptions) (m : ℕ) (hm : m ≤ a.term_years * 12) (hm1 : 1 ≤ m) :
    ageAt a m ≤ a.entry_age + a.term_years - 1 := by
  unfold ageAt
  have : (m - 1) / 12 ≤ a.term_years - 1 := by omega
  omega

theorem pifAfter_pos (O : PowOracle) (a : Assumptions)
    (hO : ∀ q : ℚ, 0 ≤ q → q < 1 → O.a2m q < 1)
    (hnum : 0 < a.num_policies) (hage : a.entry_age + a.term_years ≤ 100) :
    ∀ m : ℕ, m ≤ a.term_years * 12 → 0 < pifAfter O a m := by
  intro m
  induction m with
  | zero =>
    intro _
    rw [pifAfter]
    exact_mod_cast hnum
  | succ m ih =>
    intro hm
    have hpos := ih (by omega)
    have hage2 : ageAt a (m + 1) ≤ 99 := by
      have := ageAt_le a (m + 1) hm (by omega)
      omega
    have hq : O.a2m (qx_known (ageAt a (m + 1))) < 1 :=
      hO _ (qx_known_bounds _).1 (qx_known_lt_one _ hage2)
    rw [pifAfter]
    have hrw : pifAfter O a m - pifAfter O a m * monthlyQx O (ageAt a (m + 1)) =
        pifAfter O a m * (1 - monthlyQx O (ageAt a (m + 1))) := by ring
    rw [hrw]
    exact mul_pos hpos (by unfold monthlyQx; linarith)

theorem rowsOf_known (O : PowOracle) (a : Assumptions)
    (h : a.mortality_table = "ELT17_MALES") :
    rowsOf (run_projection O a) =
      (List.range (a.term_years * 12)).map (fun i => rowAt O a (i + 1)) := by
  rw [run_projection_known O a h]
  exact (stateAfter_spec O a (a.term_years * 12)).2.2.2.2

theorem rowsOf_length (O : PowOracle) (a : Assumptions)
    (h : a.mortality_table = "ELT17_MALES") :
    (rowsOf (run_projection O a)).length = a.term_years * 12 := by
  rw [rowsOf_known O a h]
  simp

theorem rowsOf_getD (O : PowOracle) (a : Assumptions)
    (h : a.mortality_table = "ELT17_MALES") (i : ℕ) (hi : i < a.term_years * 12) :
    (rowsOf (run_projection O a)).getD i dummyRow = rowAt O a (i + 1) := by
  rw [rowsOf_known O a h, List.getD_eq_getElem _ _ (by simpa using hi)]
  simp

theorem summaryOf_known (O : PowOracle) (a : Assumptions)
    (h : a.mortality_table = "ELT17_MALES") :
    summaryOf (run_projection O a) =
      { total_months := a.term_years * 12
        total_premiums := roundTo 2
          (((List.range (a.term_years * 12)).map (fun i => premiumsU O a (i + 1))).sum)
        total_claims := roundTo 2
          (((List.range (a.term_years * 12)).map (fun i => claimsU O a (i + 1))).sum)
        total_deaths := roundTo 4
          (((List.range (a.term_years * 12)).map (fun i => deathsU O a (i + 1))).sum)
        final_in_force := roundTo 4 (pifAfter O a (a.term_years * 12))
        peak_reserve := roundTo 2 (stateAfter O a (a.term_years * 12)).peak_reserve } := by
  rw [run_projection_known O a h]
  obtain ⟨h1, h2, h3, h4, _⟩ := stateAfter_spec O a (a.term_years * 12)
  simp [summaryOf, h1, h2, h3, h4]

theorem pifAfter_succ_eq (O : PowOracle) (a : Assumptions) (m : ℕ) :
    pifAfter O a (m + 1) = pifAfter O a m - deathsU O a (m + 1) := rfl

theorem rowAt_policies_start (O : PowOracle) (a : Assumptions) (m : ℕ) :
    (rowAt O a m).policies_start = roundTo 4 (pifAfter O a (m - 1)) := rfl

theorem rowAt_deaths (O : PowOracle) (a : Assumptions) (m : ℕ) :
    (rowAt O a m).deaths = roundTo 4 (deathsU O a m) := rfl

theorem rowAt_policies_end (O : PowOracle) (a : Assumptions) (m : ℕ) :
    (rowAt O a m).policies_end = roundTo 4 (pifAfter O a (m - 1) - deathsU O a m) := rfl

theorem rowAt_premiums (O : PowOracle) (a : Assumptions) (m : ℕ) :
    (rowAt O a m).premiums = roundTo 2 (premiumsU O a m) := rfl

theorem rowAt_claims (O : PowOracle) (a : Assumptions) (m : ℕ) :
    (rowAt O a m).claims = roundTo 2 (claimsU O a m) := rfl

theorem rowAt_net_cashflow (O : PowOracle) (a : Assumptions) (m : ℕ) :
    (rowAt O a m).net_cashflow = roundTo 2 (premiumsU O a m - claimsU O a m) := rfl

theorem rowAt_reserve (O : PowOracle) (a : Assumptions) (m : ℕ) :
    (rowAt O a m).reserve = roundTo 2 (calculate_reserveP O
      (pifAfter O a (m - 1) - deathsU O a m) a.sum_assured a.monthly_premium
      a.entry_age m (a.term_years * 12) a.interest_rate) := rfl

theorem calculate_reserveP_nonneg (O : PowOracle) (pol sa mp : ℚ) (ea : ℤ)
    (cm tm : ℕ) (ir : ℚ) : 0 ≤ calculate_reserveP O pol sa mp ea cm tm ir := by
  unfold calculate_reserveP
  split
  · exact le_refl 0
  · exact le_max_left 0 _

/-- C8: the mortality lookup clamps the age to `[0, 100]` before the
table access, i.e. `get_qx age` returns the tabulated value at
`max 0 (min age 100)`; ages below 0 use the age-0 value, ages above 100
use the age-100 value, and consequently any projection month whose
attained age exceeds 100 uses the monthly rate derived from the qx
tabulated at age 100. -/
theorem claim_c8_age_clamp :
    (∀ age : ℤ, get_qx age "ELT17_MALES" =
      Except.ok (ELT17_MALES_QX (max 0 (min age 100)).toNat)) ∧
    (∀ age : ℤ, age < 0 → get_qx age "ELT17_MALES" = get_qx 0 "ELT17_MALES") ∧
    (∀ age : ℤ, 100 < age → get_qx age "ELT17_MALES" = get_qx 100 "ELT17_MALES") ∧
    (∀ (O : PowOracle) (age : ℤ), 100 < age → monthlyQx O age = monthlyQx O 100) := by
  refine ⟨?_, ?_, ?_, ?_⟩
  · intro age
    rw [get_qx_known, qx_known, max_comm]
  · intro age h
    rw [get_qx_known, get_qx_known, qx_known_clamp_low age (le_of_lt h)]
  · intro age h
    rw [get_qx_known, get_qx_known, qx_known_clamp_high age (le_of_lt h)]
  · intro O age h
    rw [monthlyQx, monthlyQx, qx_known_clamp_high age (le_of_lt h)]

/-- Witness for C8 at the concrete ages `-3` and `137`. -/
theorem claim_c8_age_clamp_witness :
    get_qx (-3) "ELT17_MALES" = get_qx 0 "ELT17_MALES" ∧
    get_qx 137 "ELT17_MALES" = get_qx 100 "ELT17_MALES" ∧
    monthlyQx Otest 137 = monthlyQx Otest 100 :=
  ⟨claim_c8_age_clamp.2.1 (-3) (by decide), claim_c8_age_clamp.2.2.1 137 (by decide),
    claim_c8_age_clamp.2.2.2 Otest 137 (by decide)⟩

/-- C3: the mortality lookup fails exactly when the table identifier is
not the single built-in one, the error value carries the offending
identifier, and for an unknown identifier the engine returns that very
error and no partial result, while a recognized identifier always yields
a full result. -/
theorem claim_c3_unknown_table (O : PowOracle) (a : Assumptions) (hv : a.Valid) :
    (a.mortality_table ≠ "ELT17_MALES" →
      run_projection O a =
        Except.error ("Unknown mortality table: " ++ a.mortality_table)) ∧
    (a.mortality_table = "ELT17_MALES" → ∃ r, run_projection O a = Except.ok r) ∧
    (∀ (age : ℤ) (table : String), table ≠ "ELT17_MALES" →
      get_qx age table = Except.error ("Unknown mortality table: " ++ table)) ∧
    (∀ (age : ℤ) (table : String), table = "ELT17_MALES" →
      ∃ q, get_qx age table = Except.ok q) := by
  refine ⟨?_, ?_, ?_, ?_⟩
  · intro hne
    obtain ⟨n, hn⟩ : ∃ n, a.term_years * 12 = n + 1 :=
      ⟨a.term_years * 12 - 1, by have := hv.2.2.1; omega⟩
    have hq : get_qx (ageAt a 1) a.mortality_table =
        Except.error ("Unknown mortality table: " ++ a.mortality_table) := by
      simp [get_qx, hne]
    have hstep : projStep O a (n + 1) (initState a) 1 =
        Except.error ("Unknown mortality table: " ++ a.mortality_table) := by
      simp only [projStep, hq]
    simp only [run_projection, hn, runMonths, hstep]
  · intro ht
    exact ⟨_, run_projection_known O a ht⟩
  · intro age table hne
    simp [get_qx, hne]
  · intro age table ht
    subst ht
    exact ⟨_, get_qx_known age⟩

/-- Witness for C3: the engine fails with the table error on `"FOO"` and
succeeds on the built-in table. -/
theorem claim_c3_unknown_table_witness :
    run_projection Otest Abad =
      Except.error ("Unknown mortality table: " ++ Abad.mortality_table) ∧
    ∃ r, run_projection Otest Atest = Except.ok r := by
  constructor
  · exact (claim_c3_unknown_table Otest Abad (by with_unfolding_all decide)).1 (by decide)
  · exact (claim_c3_unknown_table Otest Atest (by with_unfolding_all decide)).2.1 rfl

/-- C4: with the recognized table, `calculate_reserve` always succeeds
with a non-negative value (it is floored at zero by `max 0`), it returns
exactly 0 whenever `current_month >= term_months`, and the reserve field
of the final emitted projection row (month = term_months) is 0. -/
theorem claim_c4_reserve_floor :
    (∀ (O : PowOracle) (pol sa mp : ℚ) (ea : ℤ) (cm tm : ℕ) (ir : ℚ),
      calculate_reserve O pol sa mp ea cm tm ir "ELT17_MALES" =
        Except.ok (calculate_reserveP O pol sa mp ea cm tm ir) ∧
      0 ≤ calculate_reserveP O pol sa mp ea cm tm ir) ∧
    (∀ (O : PowOracle) (pol sa mp : ℚ) (ea : ℤ) (cm tm : ℕ) (ir : ℚ), tm ≤ cm →
      calculate_reserve O pol sa mp ea cm tm ir "ELT17_MALES" = Except.ok 0) ∧
    (∀ (O : PowOracle) (a : Assumptions), a.Valid → a.mortality_table = "ELT17_MALES" →
      ((rowsOf (run_projection O a)).getLastD dummyRow).reserve = 0) := by
  refine ⟨?_, ?_, ?_⟩
  · intro O pol sa mp ea cm tm ir
    exact ⟨calculate_reserve_known O pol sa mp ea cm tm ir,
      calculate_reserveP_nonneg O pol sa mp ea cm tm ir⟩
  · intro O pol sa mp ea cm tm ir hle
    simp [calculate_reserve, hle]
  · intro O a hv ht
    obtain ⟨n, hn⟩ : ∃ n, a.term_years * 12 = n + 1 :=
      ⟨a.term_years * 12 - 1, by have := hv.2.2.1; omega⟩
    rw [rowsOf_known O a ht, hn, List.range_succ, List.map_append]
    simp only [List.map_cons, List.map_nil, List.getLastD_concat]
    rw [rowAt_reserve]
    have hz : calculate_reserveP O
        (pifAfter O a (n + 1 - 1) - deathsU O a (n + 1)) a.sum_assured
        a.monthly_premium a.entry_age (n + 1) (a.term_years * 12) a.interest_rate = 0 := by
      unfold calculate_reserveP
      rw [if_pos (by omega)]
    rw [hz, roundTo_zero]

/-- Witness for C4: the reserve at maturity and the final-row reserve
are 0 on concrete inputs. -/
theorem claim_c4_reserve_floor_witness :
    calculate_reserve Otest 5 2 1 40 12 12 0 "ELT17_MALES" = Except.ok 0 ∧
    0 ≤ calculate_reserveP Otest 1 1 1 40 3 12 0 ∧
    ((rowsOf (run_projection Otest Atest)).getLastD dummyRow).reserve = 0 :=
  ⟨claim_c4_reserve_floor.2.1 Otest 5 2 1 40 12 12 0 (le_refl 12),
    (claim_c4_reserve_floor.1 Otest 1 1 1 40 3 12 0).2,
    claim_c4_reserve_floor.2.2 Otest Atest (by with_unfolding_all decide) rfl⟩

/-- C1 (amended): the summary's running totals accumulate the
*unrounded* monthly values and are rounded once at the end:
`total_premiums` is the sum over all months of the unrounded premiums
rounded to 2 decimals, and likewise `total_claims` (2 decimals) and
`total_deaths` (4 decimals).  They are not, in general, the sums of the
emitted rounded row fields (see the counterexample). -/
theorem claim_c1_totals (O : PowOracle) (a : Assumptions) (hv : a.Valid)
    (ht : a.mortality_table = "ELT17_MALES") :
    (summaryOf (run_projection O a)).total_premiums =
      roundTo 2 (((List.range (a.term_years * 12)).map
        (fun i => premiumsU O a (i + 1))).sum) ∧
    (summaryOf (run_projection O a)).total_claims =
      roundTo 2 (((List.range (a.term_years * 12)).map
        (fun i => claimsU O a (i + 1))).sum) ∧
    (summaryOf (run_projection O a)).total_deaths =
      roundTo 4 (((List.range (a.term_years * 12)).map
        (fun i => deathsU O a (i + 1))).sum) := by
  rw [summaryOf_known O a ht]
  exact ⟨rfl, rfl, rfl⟩

/-- C1 as stated is false on the code: on a concrete valid input the
summary's `total_premiums` (the unrounded accumulation rounded once at
the end, 3.87) differs from the sum of the emitted rounded row premiums
(3.88). -/
theorem claim_c1_counterexample : Acex1.Valid ∧
    (summaryOf (run_projection Ocex1 Acex1)).total_premiums ≠
      ((rowsOf (run_projection Ocex1 Acex1)).map (fun r => r.premiums)).sum := by
  with_unfolding_all decide

/-- Witness for C1 (amended) at a concrete input. -/
theorem claim_c1_totals_witness :
    (summaryOf (run_projection Otest Atest)).total_premiums =
      roundTo 2 (((List.range (Atest.term_years * 12)).map
        (fun i => premiumsU Otest Atest (i + 1))).sum) :=
  (claim_c1_totals Otest Atest (by with_unfolding_all decide) rfl).1

/-- C2 (amended): the projection loop always runs for exactly
`term_years * 12` months with no early termination (the row list always
has that length when the table is recognized), the engine's
`policies_in_force` variable is the trajectory `pifAfter`, and that
trajectory stays strictly positive -- hence never exactly zero --
provided every monthly rate along the run is below 1, which holds
whenever every attained age stays at most 99 (that is,
`entry_age + term_years <= 100`).  When the attained age reaches 100 the
annual rate is exactly 1 and the in-force count does reach exactly zero
(see the counterexample), which is what forces this amendment. -/
theorem claim_c2_full_term (O : PowOracle) (a : Assumptions) (hv : a.Valid)
    (ht : a.mortality_table = "ELT17_MALES") :
    (rowsOf (run_projection O a)).length = a.term_years * 12 ∧
    (∀ m : ℕ, (stateAfter O a m).policies_in_force = pifAfter O a m) ∧
    ((∀ q : ℚ, 0 ≤ q → q < 1 → O.a2m q < 1) → a.entry_age + a.term_years ≤ 100 →
      ∀ m : ℕ, m ≤ a.term_years * 12 → 0 < pifAfter O a m) :=
  ⟨rowsOf_length O a ht, fun m => (stateAfter_spec O a m).1,
    fun hO hage m hm => pifAfter_pos O a hO hv.1 hage m hm⟩

/-- C2 as stated is false on the code: on a concrete valid input (entry
age 80, term 21 years, so that attained age reaches 100 in month 241
where the tabulated annual rate is 1) the in-force count becomes exactly
zero at month 241 of the run. -/
theorem claim_c2_counterexample :
    Acex2.Valid ∧ 241 ≤ Acex2.term_years * 12 ∧ pifAfter Ocex2 Acex2 241 = 0 := by
  set_option maxRecDepth 10000 in with_unfolding_all decide

/-- Witness for C2 (amended) at a concrete input. -/
theorem claim_c2_full_term_witness :
    (rowsOf (run_projection Otest Atest)).length = Atest.term_years * 12 ∧
    0 < pifAfter Otest Atest 12 := by
  constructor
  · exact (claim_c2_full_term Otest Atest (by with_unfolding_all decide) rfl).1
  · exact (claim_c2_full_term Otest Atest (by with_unfolding_all decide) rfl).2.2
      (fun q h0 h1 => by simp only [Otest]; linarith)
      (by with_unfolding_all decide) 12 (by decide)

/-- C5 (amended): the balance identity holds exactly for the unrounded
engine state (`pifAfter (m+1) = pifAfter m - deathsU (m+1)`), while for
the emitted row fields -- each rounded to 4 decimal places
independently -- it holds only up to `3/20000` (one and a half units in
the fourth decimal place), because `round4(p - d)` need not equal
`round4(p) - round4(d)` (see the counterexample, where they differ by a
whole `1/10000`). -/
theorem claim_c5_balance (O : PowOracle) (a : Assumptions) (hv : a.Valid)
    (ht : a.mortality_table = "ELT17_MALES") :
    (∀ m : ℕ, pifAfter O a (m + 1) = pifAfter O a m - deathsU O a (m + 1)) ∧
    (∀ i : ℕ, i < a.term_years * 12 →
      |((rowsOf (run_projection O a)).getD i dummyRow).policies_end -
        (((rowsOf (run_projection O a)).getD i dummyRow).policies_start -
          ((rowsOf (run_projection O a)).getD i dummyRow).deaths)| ≤ 3 / 20000) := by
  refine ⟨fun m => pifAfter_succ_eq O a m, ?_⟩
  intro i hi
  rw [rowsOf_getD O a ht i hi, rowAt_policies_end, rowAt_policies_start, rowAt_deaths]
  have h1 := abs_roundTo_sub 4 (pifAfter O a (i + 1 - 1) - deathsU O a (i + 1))
  have h2 := abs_roundTo_sub 4 (pifAfter O a (i + 1 - 1))
  have h3 := abs_roundTo_sub 4 (deathsU O a (i + 1))
  have hden : (1 : ℚ) / (2 * 10 ^ 4) = 1 / 20000 := by norm_num
  rw [hden] at h1 h2 h3
  rw [abs_le] at h1 h2 h3 ⊢
  constructor <;> linarith

/-- C5 as stated is false on the code: on a concrete valid input the
month-2 row has `policies_start = 1.0000`, `deaths = 0.0000` but
`policies_end = 0.9999`, so the rounded fields miss the identity by
`1/10000`, far beyond floating tolerance. -/
theorem claim_c5_counterexample : Acex5.Valid ∧
    ((rowsOf (run_projection Ocex5 Acex5)).getD 1 dummyRow).policies_end ≠
      ((rowsOf (run_projection Ocex5 Acex5)).getD 1 dummyRow).policies_start -
        ((rowsOf (run_projection Ocex5 Acex5)).getD 1 dummyRow).deaths := by
  with_unfolding_all decide

/-- Witness for C5 (amended) at a concrete input. -/
theorem claim_c5_balance_witness :
    pifAfter Otest Atest 1 = pifAfter Otest Atest 0 - deathsU Otest Atest 1 ∧
    |((rowsOf (run_projection Otest Atest)).getD 0 dummyRow).policies_end -
      (((rowsOf (run_projection Otest Atest)).getD 0 dummyRow).policies_start -
        ((rowsOf (run_projection Otest Atest)).getD 0 dummyRow).deaths)| ≤ 3 / 20000 :=
  ⟨(claim_c5_balance Otest Atest (by with_unfolding_all decide) rfl).1 0,
    (claim_c5_balance Otest Atest (by with_unfolding_all decide) rfl).2 0 (by decide)⟩

/-- C6: when the annual rates are probabilities in `[0, 1]` (true of the
built-in table) and the annual-to-monthly conversion maps `[0, 1]` into
`[0, 1]` (true of the real formula), the emitted in-force count is
non-increasing month over month: each row's `policies_start` dominates
the next row's, and each row's `policies_end` is at most its
`policies_start`. -/
theorem claim_c6_monotone (O : PowOracle) (a : Assumptions) (hv : a.Valid)
    (ht : a.mortality_table = "ELT17_MALES")
    (hO : ∀ q : ℚ, 0 ≤ q → q ≤ 1 → 0 ≤ O.a2m q ∧ O.a2m q ≤ 1) :
    (∀ i : ℕ, i + 1 < a.term_years * 12 →
      ((rowsOf (run_projection O a)).getD (i + 1) dummyRow).policies_start ≤
        ((rowsOf (run_projection O a)).getD i dummyRow).policies_start) ∧
    (∀ i : ℕ, i < a.term_years * 12 →
      ((rowsOf (run_projection O a)).getD i dummyRow).policies_end ≤
        ((rowsOf (run_projection O a)).getD i dummyRow).policies_start) := by
  constructor
  · intro i hi
    rw [rowsOf_getD O a ht (i + 1) hi, rowsOf_getD O a ht i (by omega),
      rowAt_policies_start, rowAt_policies_start]
    exact roundTo_mono 4 (pifAfter_succ_le O a hO i)
  · intro i hi
    rw [rowsOf_getD O a ht i hi, rowAt_policies_end, rowAt_policies_start]
    simp only [Nat.add_sub_cancel]
    rw [← pifAfter_succ_eq O a i]
    exact roundTo_mono 4 (pifAfter_succ_le O a hO i)

/-- Witness for C6 at a concrete input. -/
theorem claim_c6_monotone_witness :
    ((rowsOf (run_projection Otest Atest)).getD 1 dummyRow).policies_start ≤
      ((rowsOf (run_projection Otest Atest)).getD 0 dummyRow).policies_start ∧
    ((rowsOf (run_projection Otest Atest)).getD 0 dummyRow).policies_end ≤
      ((rowsOf (run_projection Otest Atest)).getD 0 dummyRow).policies_start := by
  have hO : ∀ q : ℚ, 0 ≤ q → q ≤ 1 → 0 ≤ Otest.a2m q ∧ Otest.a2m q ≤ 1 := by
    intro q h0 h1
    simp only [Otest]
    constructor <;> linarith
  exact ⟨(claim_c6_monotone Otest Atest (by with_unfolding_all decide) rfl hO).1 0
      (by decide),
    (claim_c6_monotone Otest Atest (by with_unfolding_all decide) rfl hO).2 0 (by decide)⟩

/-- C9: when the annual rates are probabilities in `[0, 1]` (true of the
built-in table) and the conversion maps `[0, 1]` into `[0, 1]` (true of
the real formula), every monthly rate lies in `[0, 1]`, deaths in a
month never exceed the in-force count at its start, and the in-force
count -- including the post-decrement value passed to
`calculate_reserve`, which is `pifAfter` itself, and the emitted
`policies_end` fields -- stays non-negative throughout the run. -/
theorem claim_c9_nonneg (O : PowOracle) (a : Assumptions) (hv : a.Valid)
    (ht : a.mortality_table = "ELT17_MALES")
    (hO : ∀ q : ℚ, 0 ≤ q → q ≤ 1 → 0 ≤ O.a2m q ∧ O.a2m q ≤ 1) :
    (∀ age : ℤ, 0 ≤ monthlyQx O age ∧ monthlyQx O age ≤ 1) ∧
    (∀ m : ℕ, 0 ≤ pifAfter O a m) ∧
    (∀ m : ℕ, deathsU O a (m + 1) ≤ pifAfter O a m) ∧
    (∀ i : ℕ, 0 ≤ ((rowsOf (run_projection O a)).getD i dummyRow).policies_end) := by
  have hq : ∀ age : ℤ, 0 ≤ monthlyQx O age ∧ monthlyQx O age ≤ 1 := fun age =>
    hO (qx_known age) (qx_known_bounds age).1 (qx_known_bounds age).2
  refine ⟨hq, pifAfter_nonneg O a hO, ?_, ?_⟩
  · intro m
    show pifAfter O a (m + 1 - 1) * monthlyQx O (ageAt a (m + 1)) ≤ pifAfter O a m
    simp only [Nat.add_sub_cancel]
    exact mul_le_of_le_one_right (pifAfter_nonneg O a hO m) (hq (ageAt a (m + 1))).2
  · intro i
    by_cases hi : i < a.term_years * 12
    · rw [rowsOf_getD O a ht i hi, rowAt_policies_end]
      simp only [Nat.add_sub_cancel]
      rw [← pifAfter_succ_eq O a i]
      exact roundTo_nonneg 4 (pifAfter_nonneg O a hO (i + 1))
    · rw [List.getD_eq_default _ _ (by rw [rowsOf_length O a ht]; omega)]
      exact le_refl 0

/-- Witness for C9 at a concrete input. -/
theorem claim_c9_nonneg_witness :
    0 ≤ pifAfter Otest Atest 7 ∧
    deathsU Otest Atest 4 ≤ pifAfter Otest Atest 3 ∧
    0 ≤ ((rowsOf (run_projection Otest Atest)).getD 2 dummyRow).policies_end := by
  have hO : ∀ q : ℚ, 0 ≤ q → q ≤ 1 → 0 ≤ Otest.a2m q ∧ Otest.a2m q ≤ 1 := by
    intro q h0 h1
    simp only [Otest]
    constructor <;> linarith
  exact ⟨(claim_c9_nonneg Otest Atest (by with_unfolding_all decide) rfl hO).2.1 7,
    (claim_c9_nonneg Otest Atest (by with_unfolding_all decide) rfl hO).2.2.1 3,
    (claim_c9_nonneg Otest Atest (by with_unfolding_all decide) rfl hO).2.2.2 2⟩

theorem reserveLoopP_zero_rate (O : PowOracle) (sa mp : ℚ) (ea : ℤ) (cm : ℕ) :
    ∀ (n t : ℕ) (pvB pvP ep : ℚ),
      reserveLoopP O sa mp ea cm 0 n t pvB pvP ep =
        (pvB + (undiscountedSums O sa mp ea cm n t ep).1,
          pvP + (undiscountedSums O sa mp ea cm n t ep).2) := by
  intro n
  induction n with
  | zero =>
    intro t pvB pvP ep
    simp [reserveLoopP, undiscountedSums]
  | succ n ih =>
    intro t pvB pvP ep
    simp only [reserveLoopP, undiscountedSums]
    rw [ih]
    have hd : ((1 : ℚ) + 0) ^ (-(t : ℤ)) = 1 := by norm_num
    rw [hd]
    simp only [Prod.mk.injEq]
    constructor <;> ring

/-- C7: at annual interest rate 0 the monthly rate is 0 (a hypothesis on
the power oracle, exact also in IEEE arithmetic), every discount factor
`(1 + 0) ^ (-t)` equals 1, and the reserve reduces to the floored
difference of the undiscounted sums of future expected claims and future
expected premiums over the remaining months. -/
theorem claim_c7_zero_interest (O : PowOracle) (pol sa mp : ℚ) (ea : ℤ)
    (cm tm : ℕ) (hm : O.mrate 0 = 0) :
    (∀ t : ℕ, ((1 : ℚ) + O.mrate 0) ^ (-(t : ℤ)) = 1) ∧
    calculate_reserve O pol sa mp ea cm tm 0 "ELT17_MALES" =
      Except.ok (max 0 ((undiscountedSums O sa mp ea cm (tm - cm) 0 pol).1 -
        (undiscountedSums O sa mp ea cm (tm - cm) 0 pol).2)) := by
  constructor
  · intro t
    rw [hm]
    norm_num
  · rw [calculate_reserve_known]
    unfold calculate_reserveP
    by_cases hcm : tm ≤ cm
    · rw [if_pos hcm]
      have hz : tm - cm = 0 := by omega
      rw [hz]
      simp [undiscountedSums]
    · rw [if_neg hcm, hm]
      rw [reserveLoopP_zero_rate]
      norm_num

/-- Witness for C7 at a concrete input. -/
theorem claim_c7_zero_interest_witness :
    calculate_reserve Otest 1 1 1 40 0 12 0 "ELT17_MALES" =
      Except.ok (max 0 ((undiscountedSums Otest 1 1 40 0 (12 - 0) 0 1).1 -
        (undiscountedSums Otest 1 1 40 0 (12 - 0) 0 1).2)) :=
  (claim_c7_zero_interest Otest 1 1 1 40 0 12 (by with_unfolding_all decide)).2

theorem roundTo_sub_one_cent (x y : ℚ) :
    |roundTo 2 (x - y) - (roundTo 2 x - roundTo 2 y)| ≤ 1 / 100 := by
  have h1 := abs_roundTo_sub 2 (x - y)
  have h2 := abs_roundTo_sub 2 x
  have h3 := abs_roundTo_sub 2 y
  have hden : (1 : ℚ) / (2 * 10 ^ 2) = 1 / 200 := by norm_num
  rw [hden] at h1 h2 h3
  set k : ℤ := round ((x - y) * 10 ^ 2) - round (x * 10 ^ 2) + round (y * 10 ^ 2) with hk
  have hD : roundTo 2 (x - y) - (roundTo 2 x - roundTo 2 y) = (k : ℚ) / 100 := by
    rw [hk]
    unfold roundTo
    push_cast
    ring
  have habs : |roundTo 2 (x - y) - (roundTo 2 x - roundTo 2 y)| ≤ 3 / 200 := by
    rw [abs_le] at h1 h2 h3 ⊢
    constructor <;> linarith
  have hkQ : |(k : ℚ)| ≤ 3 / 2 := by
    rw [hD, abs_div] at habs
    norm_num at habs
    linarith
  have hkZ : |k| ≤ 1 := by
    by_contra hcon
    push_neg at hcon
    have h2i : (2 : ℤ) ≤ |k| := by omega
    have h2q : (2 : ℚ) ≤ |(k : ℚ)| := by
      rw [← Int.cast_abs]
      exact_mod_cast h2i
    linarith
  have hkQ1 : |(k : ℚ)| ≤ 1 := by
    rw [← Int.cast_abs]
    exact_mod_cast hkZ
  rw [hD, abs_div]
  norm_num
  linarith

/-- C10: every emitted `net_cashflow` equals the unrounded premiums
minus the unrounded claims of that month, rounded to 2 decimals; it can
therefore differ from the difference of the row's emitted (rounded)
`premiums` and `claims` fields, by at most one cent -- and on a concrete
valid input it does differ by exactly one cent. -/
theorem claim_c10_net_cashflow :
    (∀ (O : PowOracle) (a : Assumptions), a.Valid →
      a.mortality_table = "ELT17_MALES" → ∀ i : ℕ, i < a.term_years * 12 →
        ((rowsOf (run_projection O a)).getD i dummyRow).net_cashflow =
          roundTo 2 (premiumsU O a (i + 1) - claimsU O a (i + 1)) ∧
        |((rowsOf (run_projection O a)).getD i dummyRow).net_cashflow -
          (((rowsOf (run_projection O a)).getD i dummyRow).premiums -
            ((rowsOf (run_projection O a)).getD i dummyRow).claims)| ≤ 1 / 100) ∧
    (Acex10.Valid ∧
      ((rowsOf (run_projection Ocex10 Acex10)).getD 0 dummyRow).net_cashflow ≠
        ((rowsOf (run_projection Ocex10 Acex10)).getD 0 dummyRow).premiums -
          ((rowsOf (run_projection Ocex10 Acex10)).getD 0 dummyRow).claims) := by
  constructor
  · intro O a hv ht i hi
    rw [rowsOf_getD O a ht i hi, rowAt_net_cashflow, rowAt_premiums, rowAt_claims]
    exact ⟨rfl, roundTo_sub_one_cent _ _⟩
  · with_unfolding_all decide

/-- Witness for C10 at a concrete input. -/
theorem claim_c10_net_cashflow_witness :
    ((rowsOf (run_projection Otest Atest)).getD 0 dummyRow).net_cashflow =
      roundTo 2 (premiumsU Otest Atest 1 - claimsU Otest Atest 1) ∧
    |((rowsOf (run_projection Otest Atest)).getD 0 dummyRow).net_cashflow -
      (((rowsOf (run_projection Otest Atest)).getD 0 dummyRow).premiums -
        ((rowsOf (run_projection Otest Atest)).getD 0 dummyRow).claims)| ≤ 1 / 100 :=
  ⟨(claim_c10_net_cashflow.1 Otest Atest (by with_unfolding_all decide) rfl 0
      (by decide)).1,
    (claim_c10_net_cashflow.1 Otest Atest (by with_unfolding_all decide) rfl 0
      (by decide)).2⟩
